import Mathlib

/-!
Verification development for the Planet Builders application (src/App.tsx).

The application is a single-file React Native game.  Its event handlers
mutate a current-profile snapshot and a pending-activity queue; we embed
each handler as an explicit state-passing function.  Handlers that call
other handlers (for example `answerQuestion`, which calls `updateProfile`,
then `addResources`, then `addXP`) are embedded sequentially: each call
reads the state produced by the previous one.  JavaScript numbers are
embedded as `Int` for the four resource counters (so that non-negativity
is a provable invariant rather than a typing artifact), as `Nat` for
counters that are only ever incremented, and as `Rat` where fractional
values occur (the combo multiplier, screen positions).  `Math.random()`
draws are embedded as an explicit stream of naturals, a draw of
`Math.floor(Math.random() * k)` becoming `stream i % k`; the comparator
shuffle `sort(() => Math.random() - 0.5)` is embedded as an arbitrary
permutation parameter.  Fallible handlers that alert and return without
mutating state are embedded with `Except`.
-/

namespace PlanetBuilders

/-- Age groups from `type AgeGroup` in src/App.tsx. -/
inductive AgeGroup where
  | five6
  | seven8
  | nine10
  | eleven12
deriving DecidableEq

/-- Mission subjects from `type MissionType`. -/
inductive MissionType where
  | maths
  | english
  | science
deriving DecidableEq

/-- Biome kinds from `type BiomeType`. -/
inductive BiomeType where
  | grass | forest | ocean | volcano | ice | desert | crystal | space
deriving DecidableEq

/-- Structure kinds from `type StructureType`. -/
inductive StructureType where
  | house | tower | tree | rocket | bridge | dome | mine | lab
deriving DecidableEq

/-- Creature kinds from `type CreatureType`. -/
inductive CreatureType where
  | blob | floater | runner | flyer | giant
deriving DecidableEq

/-- The `type`/`itemType` tag pair of a `PlanetItem`; the two source fields
are always consistent, so we embed them as one inductive. -/
inductive PlanetItemType where
  | biome : BiomeType → PlanetItemType
  | structureItem : StructureType → PlanetItemType
  | creature : CreatureType → PlanetItemType
deriving DecidableEq

/-- `interface PlanetItem` from src/App.tsx. -/
structure PlanetItem where
  id : String
  itemType : PlanetItemType
  position : ℚ × ℚ
  level : ℕ
deriving DecidableEq

/-- `interface PlayerProfile` from src/App.tsx.  The four resource
counters are embedded as `Int` (JavaScript numbers can in principle go
negative; their non-negativity is an invariant to prove, not an
assumption).  Counters that the program only increments are `Nat`. -/
structure Profile where
  id : String
  name : String
  age : ℕ
  ageGroup : AgeGroup
  crystals : ℤ
  artifacts : ℤ
  specimens : ℤ
  solarEnergy : ℤ
  xp : ℕ
  level : ℕ
  streak : ℕ
  lastActiveDate : String
  planetName : String
  planetItems : List PlanetItem
  unlockedBiomes : List BiomeType
  unlockedStructures : List StructureType
  unlockedCreatures : List CreatureType
  mathsCorrect : ℕ
  englishCorrect : ℕ
  scienceCorrect : ℕ
  totalCorrect : ℕ
  bestCombo : ℕ
  offScreenMinutes : ℕ
  currentCombo : ℕ
deriving DecidableEq

/-- `interface Question` from src/App.tsx (the optional `explanation`
field is embedded as an `Option`). -/
structure Question where
  question : String
  options : List String
  correctIndex : ℕ
  explanation : Option String
deriving DecidableEq

/-- `interface PendingActivity` from src/App.tsx.  `minutes` and
`solarEnergy` are `Nat`: submission validates minutes into 1..180 and the
stored reward is a product of naturals. -/
structure PendingActivity where
  id : String
  name : String
  icon : String
  minutes : ℕ
  solarEnergy : ℕ
  date : String
deriving DecidableEq

/-- Cost record of a `BIOME_SHOP` entry. -/
structure BiomeCost where
  crystals : ℕ
  solar : ℕ
deriving DecidableEq

/-- One entry of `BIOME_SHOP`. -/
structure BiomeShopItem where
  type : BiomeType
  name : String
  icon : String
  cost : BiomeCost
deriving DecidableEq

/-- Cost record of a `STRUCTURE_SHOP` entry. -/
structure StructureCost where
  crystals : ℕ
  artifacts : ℕ
deriving DecidableEq

/-- One entry of `STRUCTURE_SHOP`. -/
structure StructureShopItem where
  type : StructureType
  name : String
  icon : String
  cost : StructureCost
deriving DecidableEq

/-- Cost record of a `CREATURE_SHOP` entry. -/
structure CreatureCost where
  specimens : ℕ
deriving DecidableEq

/-- One entry of `CREATURE_SHOP`. -/
structure CreatureShopItem where
  type : CreatureType
  name : String
  icon : String
  cost : CreatureCost
deriving DecidableEq

/-- One entry of `ACTIVITIES`. -/
structure ActivityType where
  id : String
  name : String
  icon : String
  solarPerMin : ℕ
deriving DecidableEq

/-- The per-age-group configuration record of `AGE_CONFIG`. -/
structure AgeConfigEntry where
  mathsMin : ℕ
  mathsMax : ℕ
  operations : List String
  spellingWords : List String
deriving DecidableEq

/-- `XP_PER_LEVEL` from src/App.tsx. -/
def XP_PER_LEVEL : ℕ := 100

/-- `BIOME_SHOP` from src/App.tsx. -/
def BIOME_SHOP : List BiomeShopItem :=
  [⟨BiomeType.grass, "Grassland", "🌿", ⟨0, 0⟩⟩,
   ⟨BiomeType.forest, "Forest", "🌲", ⟨50, 20⟩⟩,
   ⟨BiomeType.ocean, "Ocean", "🌊", ⟨80, 30⟩⟩,
   ⟨BiomeType.desert, "Desert", "🏜️", ⟨100, 40⟩⟩,
   ⟨BiomeType.ice, "Ice Lands", "❄️", ⟨150, 50⟩⟩,
   ⟨BiomeType.volcano, "Volcano", "🌋", ⟨200, 60⟩⟩,
   ⟨BiomeType.crystal, "Crystal Caves", "💎", ⟨300, 80⟩⟩,
   ⟨BiomeType.space, "Space Station", "🚀", ⟨500, 100⟩⟩]

/-- `STRUCTURE_SHOP` from src/App.tsx. -/
def STRUCTURE_SHOP : List StructureShopItem :=
  [⟨StructureType.house, "House", "🏠", ⟨20, 5⟩⟩,
   ⟨StructureType.tree, "Magic Tree", "🌳", ⟨15, 3⟩⟩,
   ⟨StructureType.tower, "Tower", "🗼", ⟨50, 15⟩⟩,
   ⟨StructureType.mine, "Crystal Mine", "⛏️", ⟨80, 20⟩⟩,
   ⟨StructureType.lab, "Science Lab", "🔬", ⟨100, 30⟩⟩,
   ⟨StructureType.dome, "Bio Dome", "🔮", ⟨150, 40⟩⟩,
   ⟨StructureType.bridge, "Rainbow Bridge", "🌈", ⟨200, 50⟩⟩,
   ⟨StructureType.rocket, "Rocket", "🚀", ⟨400, 100⟩⟩]

/-- `CREATURE_SHOP` from src/App.tsx. -/
def CREATURE_SHOP : List CreatureShopItem :=
  [⟨CreatureType.blob, "Space Blob", "🫧", ⟨10⟩⟩,
   ⟨CreatureType.floater, "Floater", "🎈", ⟨25⟩⟩,
   ⟨CreatureType.runner, "Zoom Runner", "🦎", ⟨40⟩⟩,
   ⟨CreatureType.flyer, "Sky Dancer", "🦋", ⟨60⟩⟩,
   ⟨CreatureType.giant, "Gentle Giant", "🦕", ⟨100⟩⟩]

/-- `ACTIVITIES` from src/App.tsx. -/
def ACTIVITIES : List ActivityType :=
  [⟨"outdoor", "Played Outside", "🌳", 3⟩,
   ⟨"reading", "Read a Book", "📖", 2⟩,
   ⟨"creative", "Arts & Crafts", "🎨", 2⟩,
   ⟨"helping", "Helped at Home", "🏠", 2⟩,
   ⟨"exercise", "Exercise/Sport", "⚽", 3⟩,
   ⟨"social", "Played with Friends", "👫", 2⟩]

/-- `AGE_CONFIG` from src/App.tsx. -/
def AGE_CONFIG : AgeGroup → AgeConfigEntry
  | AgeGroup.five6 =>
      ⟨1, 10, ["addition", "subtraction"],
       ["cat", "dog", "sun", "mum", "dad", "red", "big", "run", "the", "and"]⟩
  | AgeGroup.seven8 =>
      ⟨1, 50, ["addition", "subtraction", "multiplication"],
       ["because", "friend", "school", "house", "people", "water", "about",
        "would", "their", "could"]⟩
  | AgeGroup.nine10 =>
      ⟨1, 100, ["addition", "subtraction", "multiplication", "division"],
       ["necessary", "separate", "definitely", "temperature", "environment",
        "government", "immediately", "interesting", "particular", "experience"]⟩
  | AgeGroup.eleven12 =>
      ⟨1, 1000, ["addition", "subtraction", "multiplication", "division"],
       ["accommodate", "conscience", "exaggerate", "guarantee", "independent",
        "maintenance", "occurrence", "questionnaire", "recommendation",
        "surveillance"]⟩

/-- `createDefaultProfile` from src/App.tsx lines 222-252.  The
time-derived id and current date are parameters. -/
def createDefaultProfile (name : String) (age : ℕ) (newId today : String) : Profile :=
  let ageGroup : AgeGroup :=
    if age ≤ 6 then AgeGroup.five6
    else if age ≤ 8 then AgeGroup.seven8
    else if age ≤ 10 then AgeGroup.nine10
    else AgeGroup.eleven12
  { id := newId
    name := name
    age := age
    ageGroup := ageGroup
    crystals := 50
    artifacts := 10
    specimens := 5
    solarEnergy := 30
    xp := 0
    level := 1
    streak := 0
    lastActiveDate := today
    planetName := name ++ "\x27s World"
    planetItems := [⟨"1", PlanetItemType.biome BiomeType.grass, (50, 50), 1⟩]
    unlockedBiomes := [BiomeType.grass]
    unlockedStructures := []
    unlockedCreatures := []
    mathsCorrect := 0
    englishCorrect := 0
    scienceCorrect := 0
    totalCorrect := 0
    bestCombo := 0
    offScreenMinutes := 0
    currentCombo := 0 }

/-- `getComboMultiplier` from src/App.tsx lines 254-260.  The JavaScript
value 1.5 is the rational 3/2. -/
def getComboMultiplier (combo : ℕ) : ℚ :=
  if combo ≥ 10 then 5
  else if combo ≥ 7 then 3
  else if combo ≥ 5 then 2
  else if combo ≥ 3 then 3 / 2
  else 1

/-- The amount credited by `addResources`:
`Math.floor(baseAmount * multiplier)` at a given combo.  For the bases
and multipliers in play the product is an exact dyadic rational, so
JavaScript's floating-point floor agrees with the rational floor. -/
def rewardAmount (baseAmount combo : ℕ) : ℕ :=
  ((baseAmount : ℚ) * getComboMultiplier combo).floor.toNat

/-- `addXP` from src/App.tsx lines 438-463: adds XP, recomputes the level
as `floor(newXP / 100) + 1`, and on a level raise credits the bonus of
`25 * newLevel` crystals and `10 * newLevel` solar energy. -/
def addXP (amount : ℕ) (p : Profile) : Profile :=
  let oldLevel := p.level
  let newXP := p.xp + amount
  let newLevel := newXP / XP_PER_LEVEL + 1
  let updated := { p with xp := newXP, level := newLevel }
  if newLevel > oldLevel then
    { updated with
        crystals := updated.crystals + 25 * (newLevel : ℤ)
        solarEnergy := updated.solarEnergy + 10 * (newLevel : ℤ) }
  else updated

/-- The resource kinds `addResources` can credit. -/
inductive ResourceType where
  | crystals
  | artifacts
  | specimens
deriving DecidableEq

/-- `addResources` from src/App.tsx lines 465-476: credits
`Math.floor(baseAmount * getComboMultiplier(currentCombo))` of the given
resource. -/
def addResources (type : ResourceType) (baseAmount : ℕ) (p : Profile) : Profile :=
  let amount := rewardAmount baseAmount p.currentCombo
  match type with
  | ResourceType.crystals => { p with crystals := p.crystals + (amount : ℤ) }
  | ResourceType.artifacts => { p with artifacts := p.artifacts + (amount : ℤ) }
  | ResourceType.specimens => { p with specimens := p.specimens + (amount : ℤ) }

/-- `answerQuestion` from src/App.tsx lines 613-662, restricted to its
profile effect (session counters and animations are UI state).  On a
correct answer the source first stores the profile with the incremented
combo and per-subject stats, then calls `addResources` with the
subject's base reward, then `addXP 10`; each call reads the state the
previous one stored. -/
def answerQuestion (missionType : MissionType) (q : Question) (index : ℕ)
    (p : Profile) : Profile :=
  let isCorrect := index = q.correctIndex
  if isCorrect then
    let newCombo := p.currentCombo + 1
    let updated := { p with
        currentCombo := newCombo
        bestCombo := max p.bestCombo newCombo
        totalCorrect := p.totalCorrect + 1
        mathsCorrect :=
          if missionType = MissionType.maths then p.mathsCorrect + 1 else p.mathsCorrect
        englishCorrect :=
          if missionType = MissionType.english then p.englishCorrect + 1 else p.englishCorrect
        scienceCorrect :=
          if missionType = MissionType.science then p.scienceCorrect + 1 else p.scienceCorrect }
    let afterResources :=
      match missionType with
      | MissionType.maths => addResources ResourceType.crystals 10 updated
      | MissionType.english => addResources ResourceType.artifacts 5 updated
      | MissionType.science => addResources ResourceType.specimens 3 updated
    addXP 10 afterResources
  else
    { p with currentCombo := 0 }

/-- `buyBiome` from src/App.tsx lines 668-701.  The random placement and
time-derived id are parameters; the alert messages become `Except.error`
values and the stored profile an `Except.ok`. -/
def buyBiome (biome : BiomeShopItem) (pos : ℚ × ℚ) (newId : String)
    (p : Profile) : Except String Profile :=
  if p.crystals < (biome.cost.crystals : ℤ) ∨ p.solarEnergy < (biome.cost.solar : ℤ) then
    Except.error "Not enough resources!"
  else if biome.type ∈ p.unlockedBiomes then
    Except.error "Already unlocked!"
  else
    Except.ok { p with
      crystals := p.crystals - (biome.cost.crystals : ℤ)
      solarEnergy := p.solarEnergy - (biome.cost.solar : ℤ)
      unlockedBiomes := p.unlockedBiomes ++ [biome.type]
      planetItems := p.planetItems ++
        [⟨newId, PlanetItemType.biome biome.type, pos, 1⟩] }

/-- `buyStructure` from src/App.tsx lines 703-731.  Unlike `buyBiome`
there is no already-unlocked check. -/
def buyStructure (struc : StructureShopItem) (pos : ℚ × ℚ) (newId : String)
    (p : Profile) : Except String Profile :=
  if p.crystals < (struc.cost.crystals : ℤ) ∨ p.artifacts < (struc.cost.artifacts : ℤ) then
    Except.error "Not enough resources!"
  else
    Except.ok { p with
      crystals := p.crystals - (struc.cost.crystals : ℤ)
      artifacts := p.artifacts - (struc.cost.artifacts : ℤ)
      unlockedStructures := p.unlockedStructures ++ [struc.type]
      planetItems := p.planetItems ++
        [⟨newId, PlanetItemType.structureItem struc.type, pos, 1⟩] }

/-- `buyCreature` from src/App.tsx lines 733-760.  No already-unlocked
check either. -/
def buyCreature (creature : CreatureShopItem) (pos : ℚ × ℚ) (newId : String)
    (p : Profile) : Except String Profile :=
  if p.specimens < (creature.cost.specimens : ℤ) then
    Except.error "Not enough specimens!"
  else
    Except.ok { p with
      specimens := p.specimens - (creature.cost.specimens : ℤ)
      unlockedCreatures := p.unlockedCreatures ++ [creature.type]
      planetItems := p.planetItems ++
        [⟨newId, PlanetItemType.creature creature.type, pos, 1⟩] }

/-- `submitActivity` from src/App.tsx lines 766-793.  The raw minutes
input is an `Int` (the result of `parseInt`) and is validated into
1..180; `Math.round(minutes * solarPerMin)` on integers is the exact
product.  An unknown activity id makes the source return silently with
the queue unchanged. -/
def submitActivity (selectedActivity : String) (minutes : ℤ) (newId date : String)
    (pending : List PendingActivity) : Except String (List PendingActivity) :=
  if minutes ≤ 0 ∨ 180 < minutes then
    Except.error "Please enter valid minutes (1-180)"
  else
    match ACTIVITIES.find? (fun a => a.id == selectedActivity) with
    | none => Except.ok pending
    | some activityType =>
        Except.ok (pending ++
          [⟨newId, activityType.name, activityType.icon, minutes.toNat,
            minutes.toNat * activityType.solarPerMin, date⟩])

/-- `verifyActivity` from src/App.tsx lines 795-808: looks the activity
up by id, credits its stored solar energy and minutes to the profile,
and removes every entry with that id from the queue.  An id that is not
found leaves everything unchanged. -/
def verifyActivity (activityId : String) (p : Profile)
    (pending : List PendingActivity) : Profile × List PendingActivity :=
  match pending.find? (fun a => a.id == activityId) with
  | none => (p, pending)
  | some activity =>
      ({ p with
          solarEnergy := p.solarEnergy + (activity.solarEnergy : ℤ)
          offScreenMinutes := p.offScreenMinutes + activity.minutes },
       pending.filter (fun a => a.id != activityId))

/-- The rejection handler inlined at src/App.tsx line 1370: it filters
the entry out of the queue and touches nothing else. -/
def rejectActivity (activityId : String)
    (pending : List PendingActivity) : List PendingActivity :=
  pending.filter (fun a => a.id != activityId)

/-- The arithmetic-problem part of `generateMathsQuestion`
(src/App.tsx lines 482-522): the switch on the randomly chosen operation
that produces the question text and the correct answer.  Random draws
come from the stream: index 0 picks the operation, indices 1 and 2 the
operands, `Math.floor(Math.random() * k)` becoming `stream i % k`.  The
arithmetic is over `Int` because the subtraction branch subtracts. -/
def mathsProblem (ag : AgeGroup) (stream : ℕ → ℕ) : String × ℤ :=
  let config := AGE_CONFIG ag
  let mn : ℤ := config.mathsMin
  let mx : ℤ := config.mathsMax
  let op := config.operations.getD (stream 0 % config.operations.length) ""
  if op = "addition" then
    let a : ℤ := (stream 1 : ℤ) % (mx - mn + 1) + mn
    let b : ℤ := (stream 2 : ℤ) % (mx - mn + 1) + mn
    (toString a ++ " + " ++ toString b ++ " = ?", a + b)
  else if op = "subtraction" then
    let a : ℤ := (stream 1 : ℤ) % (mx - mn + 1) + mn
    let b : ℤ := (stream 2 : ℤ) % min a mx + 1
    let swapped := if b > a then (b, a) else (a, b)
    (toString swapped.1 ++ " - " ++ toString swapped.2 ++ " = ?",
     swapped.1 - swapped.2)
  else if op = "multiplication" then
    let a : ℤ := (stream 1 : ℤ) % 12 + 1
    let b : ℤ := (stream 2 : ℤ) % 12 + 1
    (toString a ++ " × " ++ toString b ++ " = ?", a * b)
  else if op = "division" then
    let b : ℤ := (stream 1 : ℤ) % 12 + 1
    let answer : ℤ := (stream 2 : ℤ) % 12 + 1
    (toString (b * answer) ++ " ÷ " ++ toString b ++ " = ?", answer)
  else
    let a : ℤ := (stream 1 : ℤ) % mx + 1
    let b : ℤ := (stream 2 : ℤ) % mx + 1
    (toString a ++ " + " ++ toString b ++ " = ?", a + b)

/-- The `while (options.length < 4)` distractor loop of
`generateMathsQuestion` (src/App.tsx lines 524-530).  Each iteration
draws `wrong = answer + (stream i % 10) - 5` and pushes it when it is
distinct from the answer, non-negative and not already present.  The
loop has no a-priori termination bound, so it is embedded with explicit
fuel: `none` means the fuel ran out before four options were found. -/
def distractorLoop (answer : ℤ) (stream : ℕ → ℕ) :
    ℕ → ℕ → List ℤ → Option (List ℤ)
  | 0, _, acc => if 4 ≤ acc.length then some acc else none
  | fuel + 1, i, acc =>
    if 4 ≤ acc.length then some acc
    else
      let wrong := answer + ((stream i % 10 : ℕ) : ℤ) - 5
      if wrong ≠ answer ∧ 0 ≤ wrong ∧ wrong ∉ acc then
        distractorLoop answer stream fuel (i + 1) (acc ++ [wrong])
      else
        distractorLoop answer stream fuel (i + 1) acc

/-- `generateMathsQuestion` (src/App.tsx lines 482-539) up to the final
rendering of options as strings: the question text, the correct answer
and the shuffled numeric option list.  `shuffle` stands for the
comparator shuffle `options.sort(() => Math.random() - 0.5)`, whose only
guarantee is producing a permutation. -/
def generateMathsShuffled (ag : AgeGroup) (stream : ℕ → ℕ)
    (shuffle : List ℤ → List ℤ) (fuel : ℕ) : Option (String × ℤ × List ℤ) :=
  let problem := mathsProblem ag stream
  match distractorLoop problem.2 stream fuel 3 [problem.2] with
  | none => none
  | some options => some (problem.1, problem.2, shuffle options)

/-- `generateMathsQuestion` from src/App.tsx lines 482-539: the shuffled
options are rendered with `String` and `correctIndex` is
`shuffled.indexOf(answer)`. -/
def generateMathsQuestion (ag : AgeGroup) (stream : ℕ → ℕ)
    (shuffle : List ℤ → List ℤ) (fuel : ℕ) : Option Question :=
  (generateMathsShuffled ag stream shuffle fuel).map fun r =>
    ⟨r.1, r.2.2.map toString, r.2.2.indexOf r.2.1, none⟩

/-- The program state the claims range over: the current profile plus
the pending-activity queue. -/
structure GState where
  profile : Profile
  pending : List PendingActivity
deriving DecidableEq

/-- The user-initiated operations that mutate profile or queue. -/
inductive Op where
  | answerOp (missionType : MissionType) (q : Question) (index : ℕ)
  | buyBiomeOp (biome : BiomeShopItem) (pos : ℚ × ℚ) (newId : String)
  | buyStructureOp (struc : StructureShopItem) (pos : ℚ × ℚ) (newId : String)
  | buyCreatureOp (creature : CreatureShopItem) (pos : ℚ × ℚ) (newId : String)
  | submitOp (selectedActivity : String) (minutes : ℤ) (newId date : String)
  | verifyOp (activityId : String)
  | rejectOp (activityId : String)

/-- One step of the event loop: handlers that alert leave the state
unchanged (the source returns before mutating anything). -/
def step (op : Op) (s : GState) : GState :=
  match op with
  | Op.answerOp mt q index =>
      { s with profile := answerQuestion mt q index s.profile }
  | Op.buyBiomeOp biome pos newId =>
      match buyBiome biome pos newId s.profile with
      | Except.ok p1 => { s with profile := p1 }
      | Except.error _ => s
  | Op.buyStructureOp struc pos newId =>
      match buyStructure struc pos newId s.profile with
      | Except.ok p1 => { s with profile := p1 }
      | Except.error _ => s
  | Op.buyCreatureOp creature pos newId =>
      match buyCreature creature pos newId s.profile with
      | Except.ok p1 => { s with profile := p1 }
      | Except.error _ => s
  | Op.submitOp sel minutes newId date =>
      match submitActivity sel minutes newId date s.pending with
      | Except.ok q1 => { s with pending := q1 }
      | Except.error _ => s
  | Op.verifyOp activityId =>
      let r := verifyActivity activityId s.profile s.pending
      ⟨r.1, r.2⟩
  | Op.rejectOp activityId =>
      { s with pending := rejectActivity activityId s.pending }

/-- Run a finite sequence of operations. -/
def run (ops : List Op) (s : GState) : GState :=
  ops.foldl (fun t op => step op t) s

/-- All four resource counters are non-negative. -/
def ResourcesNonneg (p : Profile) : Prop :=
  0 ≤ p.crystals ∧ 0 ≤ p.artifacts ∧ 0 ≤ p.specimens ∧ 0 ≤ p.solarEnergy

/-- A queue entry as `submitActivity` creates it: its stored reward is
its minutes times the rate of an activity type from the catalog. -/
def ActivityWellFormed (a : PendingActivity) : Prop :=
  ∃ t ∈ ACTIVITIES, a.name = t.name ∧ a.solarEnergy = a.minutes * t.solarPerMin

/-- The resource counter a subject's reward is credited to. -/
def subjectResource (missionType : MissionType) (p : Profile) : ℤ :=
  match missionType with
  | MissionType.maths => p.crystals
  | MissionType.english => p.artifacts
  | MissionType.science => p.specimens

/-- The base reward per subject, from the `addResources` calls in
`answerQuestion`: 10 crystals for maths, 5 artifacts for english,
3 specimens for science. -/
def baseReward (missionType : MissionType) : ℕ :=
  match missionType with
  | MissionType.maths => 10
  | MissionType.english => 5
  | MissionType.science => 3

/-- Projection of the resource counter `addResources` writes through its
`type` argument. -/
def resourceOf (type : ResourceType) (p : Profile) : ℤ :=
  match type with
  | ResourceType.crystals => p.crystals
  | ResourceType.artifacts => p.artifacts
  | ResourceType.specimens => p.specimens

/-- The part of the `addXP` level-up bonus that lands on the answering
subject's own resource counter: for maths, the crystal bonus of a level
raise caused by the 10 XP; english and science rewards are untouched by
the bonus. -/
def levelBonusOnSubject (missionType : MissionType) (p : Profile) : ℤ :=
  let newLevel := (p.xp + 10) / XP_PER_LEVEL + 1
  if missionType = MissionType.maths ∧ p.level < newLevel then
    25 * (newLevel : ℤ)
  else 0

/-! ### Concrete fixtures used by witnesses and counterexamples -/

/-- A freshly created profile (age 7, so age group 7-8). -/
def anaProfile : Profile := createDefaultProfile "Ana" 7 "p1" "2024-01-01"

/-- A sample english question with the correct option first. -/
def engQ : Question :=
  ⟨"Which spelling is correct?", ["friend", "frend", "freind", "friende"], 0, none⟩

/-- A sample maths question with the correct option first. -/
def mathsQ : Question := ⟨"2 + 2 = ?", ["4", "5", "6", "7"], 0, none⟩

/-- The fresh profile two consecutive correct answers in. -/
def engProfile : Profile := { anaProfile with currentCombo := 2 }

/-- The fresh profile at 90 XP, one correct answer short of level 2. -/
def ana90Profile : Profile := { anaProfile with xp := 90 }

/-- A random stream under which maths generation succeeds: draws 0 pick
addition with operands 1 and 1, and the loop draws 6, 7, 8 produce the
distractors 3, 4, 5. -/
def happyStream : ℕ → ℕ :=
  fun i => if i = 3 then 6 else if i = 4 then 7 else if i = 5 then 8 else 0

/-! ## Theorems -/

/-- `Rat.floor` agrees with the floor of the `FloorRing` instance. -/
theorem rat_floor_eq_intFloor (q : ℚ) : q.floor = ⌊q⌋ := by
  rw [Rat.floor_def', Rat.floor_def]

/-- Closed form of `rewardAmount` in the five multiplier regimes. -/
theorem rewardAmount_eq (b c : ℕ) :
    rewardAmount b c =
      if c ≥ 10 then 5 * b
      else if c ≥ 7 then 3 * b
      else if c ≥ 5 then 2 * b
      else if c ≥ 3 then 3 * b / 2
      else b := by
  unfold rewardAmount getComboMultiplier
  split_ifs
  · rw [show (b : ℚ) * 5 = ((5 * b : ℕ) : ℚ) by push_cast; ring,
      rat_floor_eq_intFloor, Int.floor_natCast, Int.toNat_natCast]
  · rw [show (b : ℚ) * 3 = ((3 * b : ℕ) : ℚ) by push_cast; ring,
      rat_floor_eq_intFloor, Int.floor_natCast, Int.toNat_natCast]
  · rw [show (b : ℚ) * 2 = ((2 * b : ℕ) : ℚ) by push_cast; ring,
      rat_floor_eq_intFloor, Int.floor_natCast, Int.toNat_natCast]
  · rw [show (b : ℚ) * (3 / 2) = ((3 * b : ℕ) : ℚ) / ((2 : ℕ) : ℚ) by push_cast; ring,
      rat_floor_eq_intFloor, Rat.floor_natCast_div_natCast]
    exact Int.toNat_natCast _
  · rw [show (b : ℚ) * 1 = ((b : ℕ) : ℚ) by ring,
      rat_floor_eq_intFloor, Int.floor_natCast, Int.toNat_natCast]

/-- C5: for all combo values, the multiplier is monotonic non-decreasing
and matches the step table exactly at 0, 3, 5, 7 and 10 (the JavaScript
1.5 being the rational 3/2). -/
theorem comboMultiplier_monotone_and_table (c d : ℕ) (h : c ≤ d) :
    getComboMultiplier c ≤ getComboMultiplier d ∧
    getComboMultiplier 0 = 1 ∧ getComboMultiplier 3 = 3 / 2 ∧
    getComboMultiplier 5 = 2 ∧ getComboMultiplier 7 = 3 ∧
    getComboMultiplier 10 = 5 := by
  refine ⟨?_, by norm_num [getComboMultiplier], by norm_num [getComboMultiplier],
    by norm_num [getComboMultiplier], by norm_num [getComboMultiplier],
    by norm_num [getComboMultiplier]⟩
  unfold getComboMultiplier
  split_ifs <;> norm_num <;> omega

/-- Witness for C5 at the combo pair 3 ≤ 5. -/
theorem comboMultiplier_monotone_and_table_witness :
    getComboMultiplier 3 ≤ getComboMultiplier 5 ∧
    getComboMultiplier 0 = 1 ∧ getComboMultiplier 3 = 3 / 2 ∧
    getComboMultiplier 5 = 2 ∧ getComboMultiplier 7 = 3 ∧
    getComboMultiplier 10 = 5 :=
  comboMultiplier_monotone_and_table 3 5 (by norm_num)

/-- C2: `addXP` always stores `level = floor(xp / 100) + 1` for the new
XP total, for any profile whatsoever, and a freshly created profile has
xp 0 and level 1. -/
theorem level_always_matches_xp (amount : ℕ) (p : Profile)
    (name newId today : String) (age : ℕ) :
    (addXP amount p).level = (addXP amount p).xp / 100 + 1 ∧
    (createDefaultProfile name age newId today).xp = 0 ∧
    (createDefaultProfile name age newId today).level = 1 := by
  refine ⟨?_, rfl, rfl⟩
  unfold addXP XP_PER_LEVEL
  dsimp only
  split <;> rfl

/-- C10: the amount `addResources` credits is exactly the integer floor
of the base amount times the combo multiplier; in particular the english
base of 5 at the 1.5 multiplier credits exactly 7; and every credited
amount is a non-negative integer. -/
theorem credit_is_floor_of_base_times_multiplier
    (type : ResourceType) (baseAmount : ℕ) (p : Profile) :
    resourceOf type (addResources type baseAmount p) =
      resourceOf type p + (rewardAmount baseAmount p.currentCombo : ℤ) ∧
    rewardAmount baseAmount p.currentCombo =
      ((baseAmount : ℚ) * getComboMultiplier p.currentCombo).floor.toNat ∧
    rewardAmount 5 3 = 7 ∧ getComboMultiplier 3 = 3 / 2 ∧
    0 ≤ (rewardAmount baseAmount p.currentCombo : ℤ) := by
  refine ⟨?_, rfl, by rw [rewardAmount_eq]; norm_num, by norm_num [getComboMultiplier],
    Int.natCast_nonneg _⟩
  cases type <;> rfl

/-- C1 counterexample: answering the maths question correctly at 90 XP
credits the crystals counter with 60 (the floored reward of 10 plus the
level-up bonus of 50), not with the floored reward alone. -/
theorem answer_reward_counterexample :
    (answerQuestion MissionType.maths mathsQ 0 ana90Profile).crystals ≠
      ana90Profile.crystals +
        (rewardAmount 10 (ana90Profile.currentCombo + 1) : ℤ) := by
  simp [answerQuestion, addResources, addXP, ana90Profile, anaProfile,
    createDefaultProfile, mathsQ, rewardAmount_eq, XP_PER_LEVEL]

/-- C1 (amended): answering with the correct option index increments the
combo by one, credits the subject's resource counter with the floored
base-reward-times-multiplier evaluated at the incremented combo, plus —
for maths only — the crystal part of the level-up bonus when the 10 XP
raise the level, and grants 10 XP; answering with an incorrect index
resets the combo to zero and credits no resource. -/
theorem answer_reward_amended (missionType : MissionType) (q : Question)
    (index : ℕ) (p : Profile) :
    (index = q.correctIndex →
      (answerQuestion missionType q index p).currentCombo = p.currentCombo + 1 ∧
      subjectResource missionType (answerQuestion missionType q index p) =
        subjectResource missionType p +
          (rewardAmount (baseReward missionType) (p.currentCombo + 1) : ℤ) +
          levelBonusOnSubject missionType p ∧
      (answerQuestion missionType q index p).xp = p.xp + 10) ∧
    (index ≠ q.correctIndex →
      (answerQuestion missionType q index p).currentCombo = 0 ∧
      (answerQuestion missionType q index p).crystals = p.crystals ∧
      (answerQuestion missionType q index p).artifacts = p.artifacts ∧
      (answerQuestion missionType q index p).specimens = p.specimens ∧
      (answerQuestion missionType q index p).solarEnergy = p.solarEnergy) := by
  constructor
  · intro h
    cases missionType <;>
      simp [answerQuestion, addResources, addXP, subjectResource, baseReward,
        levelBonusOnSubject, XP_PER_LEVEL, h] <;>
      split_ifs <;> simp_all
  · intro h
    simp [answerQuestion, h]

/-- Witness for C1 (amended), at a correct english answer on combo 2 and
an incorrect english answer. -/
theorem answer_reward_amended_witness :
    ((answerQuestion MissionType.english engQ 0 engProfile).currentCombo =
        engProfile.currentCombo + 1 ∧
      subjectResource MissionType.english
          (answerQuestion MissionType.english engQ 0 engProfile) =
        subjectResource MissionType.english engProfile +
          (rewardAmount (baseReward MissionType.english)
            (engProfile.currentCombo + 1) : ℤ) +
          levelBonusOnSubject MissionType.english engProfile ∧
      (answerQuestion MissionType.english engQ 0 engProfile).xp =
        engProfile.xp + 10) ∧
    ((answerQuestion MissionType.english engQ 2 engProfile).currentCombo = 0 ∧
      (answerQuestion MissionType.english engQ 2 engProfile).crystals =
        engProfile.crystals ∧
      (answerQuestion MissionType.english engQ 2 engProfile).artifacts =
        engProfile.artifacts ∧
      (answerQuestion MissionType.english engQ 2 engProfile).specimens =
        engProfile.specimens ∧
      (answerQuestion MissionType.english engQ 2 engProfile).solarEnergy =
        engProfile.solarEnergy) :=
  ⟨(answer_reward_amended MissionType.english engQ 0 engProfile).1 rfl,
   (answer_reward_amended MissionType.english engQ 2 engProfile).2 (by decide)⟩

/-- C9: every correct answer grants exactly 10 XP regardless of subject;
an XP grant that raises the level additionally credits 25 × newLevel
crystals and 10 × newLevel solar energy, and one that does not cross a
level boundary credits neither. -/
theorem flat_xp_and_level_bonus (missionType : MissionType) (q : Question)
    (index : ℕ) (p p2 : Profile) (amount : ℕ) :
    (index = q.correctIndex →
      (answerQuestion missionType q index p).xp = p.xp + 10) ∧
    ((p2.xp + amount) / XP_PER_LEVEL + 1 > p2.level →
      (addXP amount p2).crystals =
        p2.crystals + 25 * (((p2.xp + amount) / XP_PER_LEVEL + 1 : ℕ) : ℤ) ∧
      (addXP amount p2).solarEnergy =
        p2.solarEnergy + 10 * (((p2.xp + amount) / XP_PER_LEVEL + 1 : ℕ) : ℤ)) ∧
    (¬ (p2.xp + amount) / XP_PER_LEVEL + 1 > p2.level →
      (addXP amount p2).crystals = p2.crystals ∧
      (addXP amount p2).solarEnergy = p2.solarEnergy) := by
  refine ⟨fun h => ?_, fun h => ?_, fun h => ?_⟩
  · cases missionType <;>
      simp [answerQuestion, addResources, addXP, h] <;> split_ifs <;> rfl
  · simp [addXP, h]
  · simp [addXP, h]

/-- Witness for C9: a correct maths answer on a fresh profile grants
10 XP; `addXP 100` on a fresh profile crosses to level 2 and credits the
bonus; `addXP 10` does not cross and credits nothing. -/
theorem flat_xp_and_level_bonus_witness :
    ((answerQuestion MissionType.maths mathsQ 0 anaProfile).xp =
      anaProfile.xp + 10) ∧
    ((addXP 100 anaProfile).crystals =
        anaProfile.crystals +
          25 * (((anaProfile.xp + 100) / XP_PER_LEVEL + 1 : ℕ) : ℤ) ∧
      (addXP 100 anaProfile).solarEnergy =
        anaProfile.solarEnergy +
          10 * (((anaProfile.xp + 100) / XP_PER_LEVEL + 1 : ℕ) : ℤ)) ∧
    ((addXP 10 anaProfile).crystals = anaProfile.crystals ∧
      (addXP 10 anaProfile).solarEnergy = anaProfile.solarEnergy) :=
  ⟨(flat_xp_and_level_bonus MissionType.maths mathsQ 0 anaProfile anaProfile 0).1 rfl,
   (flat_xp_and_level_bonus MissionType.maths mathsQ 0 anaProfile anaProfile 100).2.1
     (by decide),
   (flat_xp_and_level_bonus MissionType.maths mathsQ 0 anaProfile anaProfile 10).2.2
     (by decide)⟩

/-- C3 counterexample: the grass biome is in the catalog, the fresh
profile can afford its zero cost, yet the purchase is rejected (it is
already unlocked), so "otherwise it debits and appends" fails. -/
theorem purchase_guard_counterexample :
    (⟨BiomeType.grass, "Grassland", "🌿", ⟨0, 0⟩⟩ : BiomeShopItem) ∈ BIOME_SHOP ∧
    ¬ (anaProfile.crystals < ((0 : ℕ) : ℤ) ∨
        anaProfile.solarEnergy < ((0 : ℕ) : ℤ)) ∧
    buyBiome ⟨BiomeType.grass, "Grassland", "🌿", ⟨0, 0⟩⟩ (10, 10) "b1" anaProfile =
      Except.error "Already unlocked!" :=
  ⟨by decide, by decide, rfl⟩

/-- C3 (amended): a purchase with any resource strictly below cost is
rejected with no state change; an affordable purchase debits exactly the
listed costs and appends exactly one planet item — except that an
affordable biome whose type is already unlocked is also rejected with no
state change. -/
theorem purchase_guard_amended (bi : BiomeShopItem) (st : StructureShopItem)
    (cr : CreatureShopItem) (pos : ℚ × ℚ) (newId : String) (p : Profile)
    (pending : List PendingActivity) :
    ((p.crystals < (bi.cost.crystals : ℤ) ∨ p.solarEnergy < (bi.cost.solar : ℤ)) →
      buyBiome bi pos newId p = Except.error "Not enough resources!" ∧
      step (Op.buyBiomeOp bi pos newId) ⟨p, pending⟩ = ⟨p, pending⟩) ∧
    (¬ (p.crystals < (bi.cost.crystals : ℤ) ∨ p.solarEnergy < (bi.cost.solar : ℤ)) →
      bi.type ∉ p.unlockedBiomes →
      buyBiome bi pos newId p = Except.ok { p with
        crystals := p.crystals - (bi.cost.crystals : ℤ)
        solarEnergy := p.solarEnergy - (bi.cost.solar : ℤ)
        unlockedBiomes := p.unlockedBiomes ++ [bi.type]
        planetItems := p.planetItems ++
          [⟨newId, PlanetItemType.biome bi.type, pos, 1⟩] }) ∧
    (¬ (p.crystals < (bi.cost.crystals : ℤ) ∨ p.solarEnergy < (bi.cost.solar : ℤ)) →
      bi.type ∈ p.unlockedBiomes →
      buyBiome bi pos newId p = Except.error "Already unlocked!" ∧
      step (Op.buyBiomeOp bi pos newId) ⟨p, pending⟩ = ⟨p, pending⟩) ∧
    ((p.crystals < (st.cost.crystals : ℤ) ∨ p.artifacts < (st.cost.artifacts : ℤ)) →
      buyStructure st pos newId p = Except.error "Not enough resources!" ∧
      step (Op.buyStructureOp st pos newId) ⟨p, pending⟩ = ⟨p, pending⟩) ∧
    (¬ (p.crystals < (st.cost.crystals : ℤ) ∨ p.artifacts < (st.cost.artifacts : ℤ)) →
      buyStructure st pos newId p = Except.ok { p with
        crystals := p.crystals - (st.cost.crystals : ℤ)
        artifacts := p.artifacts - (st.cost.artifacts : ℤ)
        unlockedStructures := p.unlockedStructures ++ [st.type]
        planetItems := p.planetItems ++
          [⟨newId, PlanetItemType.structureItem st.type, pos, 1⟩] }) ∧
    (p.specimens < (cr.cost.specimens : ℤ) →
      buyCreature cr pos newId p = Except.error "Not enough specimens!" ∧
      step (Op.buyCreatureOp cr pos newId) ⟨p, pending⟩ = ⟨p, pending⟩) ∧
    (¬ p.specimens < (cr.cost.specimens : ℤ) →
      buyCreature cr pos newId p = Except.ok { p with
        specimens := p.specimens - (cr.cost.specimens : ℤ)
        unlockedCreatures := p.unlockedCreatures ++ [cr.type]
        planetItems := p.planetItems ++
          [⟨newId, PlanetItemType.creature cr.type, pos, 1⟩] }) := by
  refine ⟨fun h => ⟨?_, ?_⟩, fun h h2 => ?_, fun h h2 => ⟨?_, ?_⟩,
    fun h => ⟨?_, ?_⟩, fun h => ?_, fun h => ⟨?_, ?_⟩, fun h => ?_⟩ <;>
    simp [buyBiome, buyStructure, buyCreature, step, h] <;>
    simp [h2]

/-- Witness for C3 (amended): on a fresh profile the ocean biome is
unaffordable and rejected; the forest biome is affordable and not yet
unlocked, so it is bought with the exact debits; the house structure and
the blob creature behave likewise (the blob after topping specimens up
to 20). -/
theorem purchase_guard_amended_witness :
    (buyBiome ⟨BiomeType.ocean, "Ocean", "🌊", ⟨80, 30⟩⟩ (10, 10) "b1" anaProfile =
        Except.error "Not enough resources!" ∧
      step (Op.buyBiomeOp ⟨BiomeType.ocean, "Ocean", "🌊", ⟨80, 30⟩⟩ (10, 10) "b1")
          ⟨anaProfile, []⟩ = ⟨anaProfile, []⟩) ∧
    buyBiome ⟨BiomeType.forest, "Forest", "🌲", ⟨50, 20⟩⟩ (10, 10) "b1" anaProfile =
      Except.ok { anaProfile with
        crystals := anaProfile.crystals - ((50 : ℕ) : ℤ)
        solarEnergy := anaProfile.solarEnergy - ((20 : ℕ) : ℤ)
        unlockedBiomes := anaProfile.unlockedBiomes ++ [BiomeType.forest]
        planetItems := anaProfile.planetItems ++
          [⟨"b1", PlanetItemType.biome BiomeType.forest, (10, 10), 1⟩] } ∧
    buyStructure ⟨StructureType.house, "House", "🏠", ⟨20, 5⟩⟩ (10, 10) "b1" anaProfile =
      Except.ok { anaProfile with
        crystals := anaProfile.crystals - ((20 : ℕ) : ℤ)
        artifacts := anaProfile.artifacts - ((5 : ℕ) : ℤ)
        unlockedStructures := anaProfile.unlockedStructures ++ [StructureType.house]
        planetItems := anaProfile.planetItems ++
          [⟨"b1", PlanetItemType.structureItem StructureType.house, (10, 10), 1⟩] } ∧
    buyCreature ⟨CreatureType.blob, "Space Blob", "🫧", ⟨10⟩⟩ (10, 10) "b1"
        { anaProfile with specimens := 20 } =
      Except.ok { { anaProfile with specimens := 20 } with
        specimens := ({ anaProfile with specimens := 20 } : Profile).specimens -
          ((10 : ℕ) : ℤ)
        unlockedCreatures :=
          ({ anaProfile with specimens := 20 } : Profile).unlockedCreatures ++
            [CreatureType.blob]
        planetItems := ({ anaProfile with specimens := 20 } : Profile).planetItems ++
          [⟨"b1", PlanetItemType.creature CreatureType.blob, (10, 10), 1⟩] } :=
  ⟨(purchase_guard_amended ⟨BiomeType.ocean, "Ocean", "🌊", ⟨80, 30⟩⟩
      ⟨StructureType.house, "House", "🏠", ⟨20, 5⟩⟩
      ⟨CreatureType.blob, "Space Blob", "🫧", ⟨10⟩⟩ (10, 10) "b1" anaProfile []).1
      (by decide),
   (purchase_guard_amended ⟨BiomeType.forest, "Forest", "🌲", ⟨50, 20⟩⟩
      ⟨StructureType.house, "House", "🏠", ⟨20, 5⟩⟩
      ⟨CreatureType.blob, "Space Blob", "🫧", ⟨10⟩⟩ (10, 10) "b1" anaProfile []).2.1
      (by decide) (by decide),
   (purchase_guard_amended ⟨BiomeType.forest, "Forest", "🌲", ⟨50, 20⟩⟩
      ⟨StructureType.house, "House", "🏠", ⟨20, 5⟩⟩
      ⟨CreatureType.blob, "Space Blob", "🫧", ⟨10⟩⟩ (10, 10) "b1" anaProfile []).2.2.2.2.1
      (by decide),
   (purchase_guard_amended ⟨BiomeType.forest, "Forest", "🌲", ⟨50, 20⟩⟩
      ⟨StructureType.house, "House", "🏠", ⟨20, 5⟩⟩
      ⟨CreatureType.blob, "Space Blob", "🫧", ⟨10⟩⟩ (10, 10) "b1"
      { anaProfile with specimens := 20 } []).2.2.2.2.2.2
      (by decide)⟩

/-- C7: approving a pending activity credits the profile's solar energy
with exactly the activity's minutes times its activity-type rate (every
queue entry created by `submitActivity` carries that product), changes
no other resource counter, and removes the entry from the queue;
rejecting removes the entry with the profile untouched.  The last
conjunct shows `submitActivity` only ever appends entries of that
well-formed shape. -/
theorem activity_approval_and_rejection (activityId : String) (s : GState)
    (act : PendingActivity)
    (hfind : s.pending.find? (fun a => a.id == activityId) = some act)
    (hwf : ActivityWellFormed act) :
    (∃ t ∈ ACTIVITIES, act.name = t.name ∧
      (step (Op.verifyOp activityId) s).profile.solarEnergy =
        s.profile.solarEnergy + ((act.minutes * t.solarPerMin : ℕ) : ℤ)) ∧
    (step (Op.verifyOp activityId) s).profile.crystals = s.profile.crystals ∧
    (step (Op.verifyOp activityId) s).profile.artifacts = s.profile.artifacts ∧
    (step (Op.verifyOp activityId) s).profile.specimens = s.profile.specimens ∧
    (step (Op.verifyOp activityId) s).pending =
      s.pending.filter (fun a => a.id != activityId) ∧
    (step (Op.rejectOp activityId) s).profile = s.profile ∧
    (step (Op.rejectOp activityId) s).pending =
      s.pending.filter (fun a => a.id != activityId) ∧
    (∀ sel minutes newId date q1,
      submitActivity sel minutes newId date s.pending = Except.ok q1 →
      ∀ a ∈ q1, a ∈ s.pending ∨ ActivityWellFormed a) := by
  obtain ⟨t, ht, hname, hsol⟩ := hwf
  refine ⟨⟨t, ht, hname, ?_⟩, ?_, ?_, ?_, ?_, ?_, ?_, ?_⟩
  · simp [step, verifyActivity, hfind, hsol]
  · simp [step, verifyActivity, hfind]
  · simp [step, verifyActivity, hfind]
  · simp [step, verifyActivity, hfind]
  · simp [step, verifyActivity, hfind]
  · simp [step, rejectActivity]
  · simp [step, rejectActivity]
  · intro sel minutes newId date q1 hsub a ha
    unfold submitActivity at hsub
    split_ifs at hsub
    rcases hfindAct : ACTIVITIES.find? (fun x => x.id == sel) with _ | u <;>
      rw [hfindAct] at hsub
    · cases hsub
      exact Or.inl ha
    · cases hsub
      rcases List.mem_append.1 ha with hl | hr
      · exact Or.inl hl
      · refine Or.inr ⟨u, List.mem_of_find?_eq_some hfindAct, ?_⟩
        simp_all [List.mem_singleton]

/-- Witness for C7 on a one-entry queue holding a verified 30-minute
reading activity (rate 2, stored reward 60). -/
theorem activity_approval_and_rejection_witness :
    (∃ t ∈ ACTIVITIES,
      (⟨"a1", "Read a Book", "📖", 30, 60, "2024-01-02"⟩ : PendingActivity).name =
        t.name ∧
      (step (Op.verifyOp "a1")
          ⟨anaProfile, [⟨"a1", "Read a Book", "📖", 30, 60, "2024-01-02"⟩]⟩).profile.solarEnergy =
        (⟨anaProfile, [⟨"a1", "Read a Book", "📖", 30, 60, "2024-01-02"⟩]⟩ : GState).profile.solarEnergy +
          (((⟨"a1", "Read a Book", "📖", 30, 60, "2024-01-02"⟩ : PendingActivity).minutes *
            t.solarPerMin : ℕ) : ℤ)) ∧
    (step (Op.verifyOp "a1")
        ⟨anaProfile, [⟨"a1", "Read a Book", "📖", 30, 60, "2024-01-02"⟩]⟩).profile.crystals =
      (⟨anaProfile, [⟨"a1", "Read a Book", "📖", 30, 60, "2024-01-02"⟩]⟩ : GState).profile.crystals ∧
    (step (Op.verifyOp "a1")
        ⟨anaProfile, [⟨"a1", "Read a Book", "📖", 30, 60, "2024-01-02"⟩]⟩).profile.artifacts =
      (⟨anaProfile, [⟨"a1", "Read a Book", "📖", 30, 60, "2024-01-02"⟩]⟩ : GState).profile.artifacts ∧
    (step (Op.verifyOp "a1")
        ⟨anaProfile, [⟨"a1", "Read a Book", "📖", 30, 60, "2024-01-02"⟩]⟩).profile.specimens =
      (⟨anaProfile, [⟨"a1", "Read a Book", "📖", 30, 60, "2024-01-02"⟩]⟩ : GState).profile.specimens ∧
    (step (Op.verifyOp "a1")
        ⟨anaProfile, [⟨"a1", "Read a Book", "📖", 30, 60, "2024-01-02"⟩]⟩).pending =
      ([⟨"a1", "Read a Book", "📖", 30, 60, "2024-01-02"⟩] : List PendingActivity).filter
        (fun a => a.id != "a1") ∧
    (step (Op.rejectOp "a1")
        ⟨anaProfile, [⟨"a1", "Read a Book", "📖", 30, 60, "2024-01-02"⟩]⟩).profile =
      (⟨anaProfile, [⟨"a1", "Read a Book", "📖", 30, 60, "2024-01-02"⟩]⟩ : GState).profile ∧
    (step (Op.rejectOp "a1")
        ⟨anaProfile, [⟨"a1", "Read a Book", "📖", 30, 60, "2024-01-02"⟩]⟩).pending =
      ([⟨"a1", "Read a Book", "📖", 30, 60, "2024-01-02"⟩] : List PendingActivity).filter
        (fun a => a.id != "a1") ∧
    (∀ sel minutes newId date q1,
      submitActivity sel minutes newId date
          ([⟨"a1", "Read a Book", "📖", 30, 60, "2024-01-02"⟩] : List PendingActivity) =
        Except.ok q1 →
      ∀ a ∈ q1,
        a ∈ ([⟨"a1", "Read a Book", "📖", 30, 60, "2024-01-02"⟩] : List PendingActivity) ∨
          ActivityWellFormed a) :=
  activity_approval_and_rejection "a1"
    ⟨anaProfile, [⟨"a1", "Read a Book", "📖", 30, 60, "2024-01-02"⟩]⟩
    ⟨"a1", "Read a Book", "📖", 30, 60, "2024-01-02"⟩ (by decide)
    ⟨⟨"reading", "Read a Book", "📖", 2⟩, by decide, by decide, by decide⟩

/-- C8: a biome purchase whose type is already unlocked is rejected with
no state change; affordable repeat purchases of structures and creatures
are not rejected — costs are debited again and the type is appended to
the unlocked list a second time, so duplicates accumulate. -/
theorem dedup_biomes_only (bi : BiomeShopItem) (st : StructureShopItem)
    (cr : CreatureShopItem) (pos : ℚ × ℚ) (newId : String) (p : Profile)
    (pending : List PendingActivity) :
    (bi.type ∈ p.unlockedBiomes →
      (∃ msg, buyBiome bi pos newId p = Except.error msg) ∧
      step (Op.buyBiomeOp bi pos newId) ⟨p, pending⟩ = ⟨p, pending⟩) ∧
    (¬ (p.crystals < (st.cost.crystals : ℤ) ∨ p.artifacts < (st.cost.artifacts : ℤ)) →
      st.type ∈ p.unlockedStructures →
      ∃ p1, buyStructure st pos newId p = Except.ok p1 ∧
        p1.crystals = p.crystals - (st.cost.crystals : ℤ) ∧
        p1.artifacts = p.artifacts - (st.cost.artifacts : ℤ) ∧
        p1.unlockedStructures = p.unlockedStructures ++ [st.type] ∧
        2 ≤ p1.unlockedStructures.count st.type) ∧
    (¬ p.specimens < (cr.cost.specimens : ℤ) →
      cr.type ∈ p.unlockedCreatures →
      ∃ p1, buyCreature cr pos newId p = Except.ok p1 ∧
        p1.specimens = p.specimens - (cr.cost.specimens : ℤ) ∧
        p1.unlockedCreatures = p.unlockedCreatures ++ [cr.type] ∧
        2 ≤ p1.unlockedCreatures.count cr.type) := by
  refine ⟨fun h => ?_, fun h h2 => ?_, fun h h2 => ?_⟩
  · by_cases hc : p.crystals < (bi.cost.crystals : ℤ) ∨ p.solarEnergy < (bi.cost.solar : ℤ)
    · exact ⟨⟨"Not enough resources!", by simp [buyBiome, hc]⟩,
        by simp [step, buyBiome, hc]⟩
    · exact ⟨⟨"Already unlocked!", by simp [buyBiome, hc, h]⟩,
        by simp [step, buyBiome, hc, h]⟩
  · refine ⟨{ p with
        crystals := p.crystals - (st.cost.crystals : ℤ)
        artifacts := p.artifacts - (st.cost.artifacts : ℤ)
        unlockedStructures := p.unlockedStructures ++ [st.type]
        planetItems := p.planetItems ++
          [⟨newId, PlanetItemType.structureItem st.type, pos, 1⟩] },
      by simp [buyStructure, h], rfl, rfl, rfl, ?_⟩
    have hpos := List.count_pos_iff.2 h2
    simp only [List.count_append, List.count_singleton, beq_self_eq_true, if_true]
    omega
  · refine ⟨{ p with
        specimens := p.specimens - (cr.cost.specimens : ℤ)
        unlockedCreatures := p.unlockedCreatures ++ [cr.type]
        planetItems := p.planetItems ++
          [⟨newId, PlanetItemType.creature cr.type, pos, 1⟩] },
      by simp [buyCreature, h], rfl, rfl, ?_⟩
    have hpos := List.count_pos_iff.2 h2
    simp only [List.count_append, List.count_singleton, beq_self_eq_true, if_true]
    omega

/-- Witness for C8: the fresh profile already owns grass, so re-buying
it is rejected; after unlocking the house structure and the blob
creature (with specimens topped up to 20), affordable repeat purchases
go through and duplicate the unlock entries. -/
theorem dedup_biomes_only_witness :
    ((∃ msg, buyBiome ⟨BiomeType.grass, "Grassland", "🌿", ⟨0, 0⟩⟩ (10, 10) "b1"
        anaProfile = Except.error msg) ∧
      step (Op.buyBiomeOp ⟨BiomeType.grass, "Grassland", "🌿", ⟨0, 0⟩⟩ (10, 10) "b1")
          ⟨anaProfile, []⟩ = ⟨anaProfile, []⟩) ∧
    (∃ p1, buyStructure ⟨StructureType.house, "House", "🏠", ⟨20, 5⟩⟩ (10, 10) "b1"
        { anaProfile with unlockedStructures := [StructureType.house] } =
        Except.ok p1 ∧
      p1.crystals =
        ({ anaProfile with unlockedStructures := [StructureType.house] } : Profile).crystals -
          ((20 : ℕ) : ℤ) ∧
      p1.artifacts =
        ({ anaProfile with unlockedStructures := [StructureType.house] } : Profile).artifacts -
          ((5 : ℕ) : ℤ) ∧
      p1.unlockedStructures =
        ({ anaProfile with unlockedStructures := [StructureType.house] } : Profile).unlockedStructures ++
          [StructureType.house] ∧
      2 ≤ p1.unlockedStructures.count StructureType.house) ∧
    (∃ p1, buyCreature ⟨CreatureType.blob, "Space Blob", "🫧", ⟨10⟩⟩ (10, 10) "b1"
        { anaProfile with specimens := 20, unlockedCreatures := [CreatureType.blob] } =
        Except.ok p1 ∧
      p1.specimens =
        ({ anaProfile with specimens := 20, unlockedCreatures := [CreatureType.blob] } : Profile).specimens -
          ((10 : ℕ) : ℤ) ∧
      p1.unlockedCreatures =
        ({ anaProfile with specimens := 20, unlockedCreatures := [CreatureType.blob] } : Profile).unlockedCreatures ++
          [CreatureType.blob] ∧
      2 ≤ p1.unlockedCreatures.count CreatureType.blob) :=
  ⟨(dedup_biomes_only ⟨BiomeType.grass, "Grassland", "🌿", ⟨0, 0⟩⟩
      ⟨StructureType.house, "House", "🏠", ⟨20, 5⟩⟩
      ⟨CreatureType.blob, "Space Blob", "🫧", ⟨10⟩⟩ (10, 10) "b1" anaProfile []).1
      (by decide),
   (dedup_biomes_only ⟨BiomeType.grass, "Grassland", "🌿", ⟨0, 0⟩⟩
      ⟨StructureType.house, "House", "🏠", ⟨20, 5⟩⟩
      ⟨CreatureType.blob, "Space Blob", "🫧", ⟨10⟩⟩ (10, 10) "b1"
      { anaProfile with unlockedStructures := [StructureType.house] } []).2.1
      (by decide) (by decide),
   (dedup_biomes_only ⟨BiomeType.grass, "Grassland", "🌿", ⟨0, 0⟩⟩
      ⟨StructureType.house, "House", "🏠", ⟨20, 5⟩⟩
      ⟨CreatureType.blob, "Space Blob", "🫧", ⟨10⟩⟩ (10, 10) "b1"
      { anaProfile with specimens := 20, unlockedCreatures := [CreatureType.blob] } []).2.2
      (by decide) (by decide)⟩

/-- `addResources` only adds a natural amount, so it preserves
non-negativity. -/
theorem addResources_nonneg (type : ResourceType) (baseAmount : ℕ) (p : Profile)
    (h : ResourcesNonneg p) : ResourcesNonneg (addResources type baseAmount p) := by
  obtain ⟨h1, h2, h3, h4⟩ := h
  cases type <;> refine ⟨?_, ?_, ?_, ?_⟩ <;> simp [addResources] <;> omega

/-- `addXP` only ever adds the level-up bonus, so it preserves
non-negativity. -/
theorem addXP_nonneg (amount : ℕ) (p : Profile) (h : ResourcesNonneg p) :
    ResourcesNonneg (addXP amount p) := by
  obtain ⟨h1, h2, h3, h4⟩ := h
  unfold addXP
  dsimp only
  split
  · exact ⟨add_nonneg h1 (by positivity), h2, h3,
      add_nonneg h4 (by positivity)⟩
  · exact ⟨h1, h2, h3, h4⟩

/-- `answerQuestion` preserves non-negativity: a correct answer only
credits, an incorrect one only resets the combo. -/
theorem answerQuestion_nonneg (missionType : MissionType) (q : Question)
    (index : ℕ) (p : Profile) (h : ResourcesNonneg p) :
    ResourcesNonneg (answerQuestion missionType q index p) := by
  unfold answerQuestion
  dsimp only
  split
  · cases missionType <;>
      exact addXP_nonneg _ _ (addResources_nonneg _ _ _
        ⟨h.1, h.2.1, h.2.2.1, h.2.2.2⟩)
  · exact h

/-- A successful `buyBiome` debits only what the guard proved present. -/
theorem buyBiome_ok_nonneg (biome : BiomeShopItem) (pos : ℚ × ℚ) (newId : String)
    (p p1 : Profile) (hok : buyBiome biome pos newId p = Except.ok p1)
    (h : ResourcesNonneg p) : ResourcesNonneg p1 := by
  obtain ⟨h1, h2, h3, h4⟩ := h
  unfold buyBiome at hok
  split_ifs at hok with hc hm
  cases hok
  refine ⟨?_, ?_, ?_, ?_⟩ <;> simp <;> omega

/-- A successful `buyStructure` debits only what the guard proved
present. -/
theorem buyStructure_ok_nonneg (struc : StructureShopItem) (pos : ℚ × ℚ)
    (newId : String) (p p1 : Profile)
    (hok : buyStructure struc pos newId p = Except.ok p1)
    (h : ResourcesNonneg p) : ResourcesNonneg p1 := by
  obtain ⟨h1, h2, h3, h4⟩ := h
  unfold buyStructure at hok
  split_ifs at hok with hc
  cases hok
  refine ⟨?_, ?_, ?_, ?_⟩ <;> simp <;> omega

/-- A successful `buyCreature` debits only what the guard proved
present. -/
theorem buyCreature_ok_nonneg (creature : CreatureShopItem) (pos : ℚ × ℚ)
    (newId : String) (p p1 : Profile)
    (hok : buyCreature creature pos newId p = Except.ok p1)
    (h : ResourcesNonneg p) : ResourcesNonneg p1 := by
  obtain ⟨h1, h2, h3, h4⟩ := h
  unfold buyCreature at hok
  split_ifs at hok with hc
  cases hok
  refine ⟨?_, ?_, ?_, ?_⟩ <;> simp <;> omega

/-- `verifyActivity` only credits the stored natural reward. -/
theorem verifyActivity_nonneg (activityId : String) (p : Profile)
    (pending : List PendingActivity) (h : ResourcesNonneg p) :
    ResourcesNonneg (verifyActivity activityId p pending).1 := by
  obtain ⟨h1, h2, h3, h4⟩ := h
  unfold verifyActivity
  split
  · exact ⟨h1, h2, h3, h4⟩
  · exact ⟨h1, h2, h3, add_nonneg h4 (Int.natCast_nonneg _)⟩

/-- Every single step of the event loop preserves non-negativity of the
profile's resources. -/
theorem step_preserves_nonneg (op : Op) (s : GState)
    (h : ResourcesNonneg s.profile) : ResourcesNonneg (step op s).profile := by
  cases op with
  | answerOp mt q index => exact answerQuestion_nonneg mt q index _ h
  | buyBiomeOp biome pos newId =>
      simp only [step]
      rcases hb : buyBiome biome pos newId s.profile with _ | p1 <;>
        simp only [hb]
      · exact h
      · exact buyBiome_ok_nonneg biome pos newId _ p1 hb h
  | buyStructureOp struc pos newId =>
      simp only [step]
      rcases hb : buyStructure struc pos newId s.profile with _ | p1 <;>
        simp only [hb]
      · exact h
      · exact buyStructure_ok_nonneg struc pos newId _ p1 hb h
  | buyCreatureOp creature pos newId =>
      simp only [step]
      rcases hb : buyCreature creature pos newId s.profile with _ | p1 <;>
        simp only [hb]
      · exact h
      · exact buyCreature_ok_nonneg creature pos newId _ p1 hb h
  | submitOp sel minutes newId date =>
      simp only [step]
      rcases hb : submitActivity sel minutes newId date s.pending with _ | q1 <;>
        simp only [hb] <;> exact h
  | verifyOp activityId => exact verifyActivity_nonneg activityId _ _ h
  | rejectOp activityId => exact h

/-- Running any operation list preserves non-negativity. -/
theorem run_preserves_nonneg (ops : List Op) (s : GState)
    (h : ResourcesNonneg s.profile) : ResourcesNonneg (run ops s).profile := by
  induction ops generalizing s with
  | nil => exact h
  | cons op rest ih => exact ih (step op s) (step_preserves_nonneg op s h)

/-- C4: starting from a freshly created profile (and any pending queue),
every finite sequence of operations — answers, purchases, activity
submissions, approvals, rejections, with their embedded level-ups —
leaves all four resource counters non-negative. -/
theorem resources_never_negative (ops : List Op) (name newId today : String)
    (age : ℕ) (pending0 : List PendingActivity) :
    ResourcesNonneg
      (run ops ⟨createDefaultProfile name age newId today, pending0⟩).profile := by
  refine run_preserves_nonneg ops _ ⟨?_, ?_, ?_, ?_⟩ <;>
    simp [createDefaultProfile]

/-- The arithmetic answer is non-negative for every age group and random
stream. -/
theorem mathsProblem_answer_nonneg (ag : AgeGroup) (stream : ℕ → ℕ) :
    0 ≤ (mathsProblem ag stream).2 := by
  cases ag <;> simp only [mathsProblem, AGE_CONFIG] <;> split_ifs <;>
    dsimp only <;>
    first
      | omega
      | exact mul_nonneg (by omega) (by omega)

/-- The distractor loop, when it returns, returns a list of exactly four
distinct non-negative values still containing the answer it started
from. -/
theorem distractorLoop_spec (answer : ℤ) (stream : ℕ → ℕ) :
    ∀ (fuel i : ℕ) (acc out : List ℤ),
      distractorLoop answer stream fuel i acc = some out →
      acc.length ≤ 4 → answer ∈ acc → acc.Nodup → (∀ x ∈ acc, 0 ≤ x) →
      out.length = 4 ∧ answer ∈ out ∧ out.Nodup ∧ ∀ x ∈ out, 0 ≤ x := by
  intro fuel
  induction fuel with
  | zero =>
      intro i acc out h hlen hmem hnd hnn
      by_cases hc : 4 ≤ acc.length
      · rw [distractorLoop, if_pos hc] at h
        cases h
        exact ⟨by omega, hmem, hnd, hnn⟩
      · rw [distractorLoop, if_neg hc] at h
        cases h
  | succ fuel ih =>
      intro i acc out h hlen hmem hnd hnn
      by_cases hc : 4 ≤ acc.length
      · rw [distractorLoop, if_pos hc] at h
        cases h
        exact ⟨by omega, hmem, hnd, hnn⟩
      · rw [distractorLoop, if_neg hc] at h
        dsimp only at h
        by_cases hw : answer + ((stream i % 10 : ℕ) : ℤ) - 5 ≠ answer ∧
            0 ≤ answer + ((stream i % 10 : ℕ) : ℤ) - 5 ∧
            answer + ((stream i % 10 : ℕ) : ℤ) - 5 ∉ acc
        · rw [if_pos hw] at h
          refine ih (i + 1) _ out h ?_ ?_ ?_ ?_
          · simp only [List.length_append, List.length_singleton]
            omega
          · exact List.mem_append.2 (Or.inl hmem)
          · simp only [List.nodup_append, List.nodup_singleton,
              List.disjoint_singleton]
            exact ⟨hnd, trivial, hw.2.2⟩
          · intro x hx
            rcases List.mem_append.1 hx with hx | hx
            · exact hnn x hx
            · rw [List.mem_singleton.1 hx]
              exact hw.2.1
        · rw [if_neg hw] at h
          exact ih (i + 1) acc out h hlen hmem hnd hnn

/-- Under the constant stream 5 every candidate distractor equals the
answer, so the loop never makes progress. -/
theorem distractorLoop_const5_stuck (answer : ℤ) :
    ∀ (fuel i : ℕ),
      distractorLoop answer (fun _ => 5) fuel i [answer] = none := by
  intro fuel
  induction fuel with
  | zero => intro i; rw [distractorLoop, if_neg (by simp)]
  | succ fuel ih =>
      intro i
      rw [distractorLoop, if_neg (by simp)]
      dsimp only
      rw [if_neg (by norm_num)]
      exact ih (i + 1)

/-- C6 counterexample: the claim quantifies over every random stream,
but under the constant stream 5 (for the 5-6 age group, with the
identity shuffle) the distractor loop never terminates — no amount of
fuel makes generation succeed. -/
theorem maths_generation_counterexample :
    ¬ ∃ fuel q,
      generateMathsShuffled AgeGroup.five6 (fun _ => 5) (fun l => l) fuel =
        some q := by
  rintro ⟨fuel, q, h⟩
  unfold generateMathsShuffled at h
  dsimp only at h
  have h2 : (mathsProblem AgeGroup.five6 (fun _ => 5)).2 = 0 := rfl
  rw [h2, distractorLoop_const5_stuck 0 fuel 3] at h
  cases h

/-- C6 (amended): whenever the distractor loop does terminate, the
generated question has exactly four pairwise-distinct non-negative
numeric options including the correct answer, and `correctIndex` points
at the correct answer's position in the shuffled list. -/
theorem maths_generation_amended (ag : AgeGroup) (stream : ℕ → ℕ)
    (shuffle : List ℤ → List ℤ) (fuel : ℕ) (text : String) (answer : ℤ)
    (opts : List ℤ)
    (hshuffle : ∀ l, List.Perm (shuffle l) l)
    (hgen : generateMathsShuffled ag stream shuffle fuel =
      some (text, answer, opts)) :
    opts.length = 4 ∧ opts.Nodup ∧ (∀ x ∈ opts, 0 ≤ x) ∧ answer ∈ opts ∧
    opts.get? (opts.indexOf answer) = some answer ∧
    generateMathsQuestion ag stream shuffle fuel =
      some ⟨text, opts.map toString, opts.indexOf answer, none⟩ := by
  have hq : generateMathsQuestion ag stream shuffle fuel =
      some ⟨text, opts.map toString, opts.indexOf answer, none⟩ := by
    unfold generateMathsQuestion
    rw [hgen]
    rfl
  unfold generateMathsShuffled at hgen
  dsimp only at hgen
  rcases hd : distractorLoop (mathsProblem ag stream).2 stream fuel 3
      [(mathsProblem ag stream).2] with _ | options
  · rw [hd] at hgen; cases hgen
  · rw [hd] at hgen
    injection hgen with hgen
    have htext : text = (mathsProblem ag stream).1 := congrArg Prod.fst hgen.symm
    have hrest := congrArg Prod.snd hgen
    have hans : (mathsProblem ag stream).2 = answer :=
      (congrArg Prod.fst hrest)
    have hopts : shuffle options = opts := congrArg Prod.snd hrest
    have hspec := distractorLoop_spec (mathsProblem ag stream).2 stream fuel 3
      [(mathsProblem ag stream).2] options hd (by simp) (by simp) (by simp)
      (by simpa using mathsProblem_answer_nonneg ag stream)
    have hperm : List.Perm opts options := hopts ▸ hshuffle options
    have hlen : opts.length = 4 := hperm.length_eq.trans hspec.1
    have hmem : answer ∈ opts := hperm.mem_iff.2 (hans ▸ hspec.2.1)
    have hnd : opts.Nodup := hperm.symm.nodup hspec.2.2.1
    refine ⟨hlen, hnd, ?_, hmem, List.indexOf_get? hmem, hq⟩
    intro x hx
    exact hspec.2.2.2 x (hperm.mem_iff.1 hx)

/-- Witness for C6 (amended): under `happyStream` with fuel 3 and the
identity shuffle, generation succeeds with options 2, 3, 4, 5 and the
correct answer 2 in front. -/
theorem maths_generation_amended_witness :
    ([2, 3, 4, 5] : List ℤ).length = 4 ∧ ([2, 3, 4, 5] : List ℤ).Nodup ∧
    (∀ x ∈ ([2, 3, 4, 5] : List ℤ), 0 ≤ x) ∧ (2 : ℤ) ∈ [2, 3, 4, 5] ∧
    ([2, 3, 4, 5] : List ℤ).get? (([2, 3, 4, 5] : List ℤ).indexOf 2) =
      some 2 ∧
    generateMathsQuestion AgeGroup.five6 happyStream (fun l => l) 3 =
      some ⟨"1 + 1 = ?", ([2, 3, 4, 5] : List ℤ).map toString,
        ([2, 3, 4, 5] : List ℤ).indexOf 2, none⟩ :=
  maths_generation_amended AgeGroup.five6 happyStream (fun l => l) 3
    "1 + 1 = ?" 2 [2, 3, 4, 5] (fun l => List.Perm.refl l) rfl

end PlanetBuilders
